import Mathlib

/-!
Verification of the `map_err_ignore` clippy lint
(`src/clippy_lints/src/map_err_ignore.rs`).

The development shallowly embeds the slice of the rustc HIR that the lint
inspects (expressions, qualified paths, resolutions, closure bodies) and the
two functions of the source file: the shape predicate `is_unit_enum_variant`
and the detector entry point `MapErrIgnore.check_expr`.  Diagnostic emission
through `span_lint_and_help` is modelled by returning the list of emitted
diagnostic records (empty on a silent return, a singleton on a match).
-/

namespace MapErrIgnore

/-- Source span.  `from_expansion` models `Span::from_expansion`, the flag
telling whether the span comes from macro expansion or desugaring. -/
structure Span where
  lo : Nat
  hi : Nat
  from_expansion : Bool
deriving DecidableEq

/-- An identifier, carrying its string name (`Ident::as_str`). -/
structure Ident where
  name : String
deriving DecidableEq

/-- A path segment; the lint only reads its identifier. -/
structure PathSegment where
  ident : Ident
deriving DecidableEq

/-- Placeholder for a HIR type node (`hir::Ty`); the lint never inspects its
contents, only whether one is present as a self-type qualifier. -/
structure Ty where
  id : Nat
deriving DecidableEq

/-- What a constructor definition belongs to (`rustc_hir::def::CtorOf`). -/
inductive CtorOf : Type where
  | structCtor : CtorOf
  | variant : CtorOf
deriving DecidableEq

/-- The kind of a constructor (`rustc_hir::def::CtorKind`): a function-like
constructor taking fields, or a constant (unit) constructor with no fields. -/
inductive CtorKind : Type where
  | fn : CtorKind
  | const : CtorKind
deriving DecidableEq

/-- Definition kinds a resolution may point at (`rustc_hir::def::DefKind`),
restricted to the classifications the claims distinguish; everything the lint
does not single out is collapsed into dedicated constructors. -/
inductive DefKind : Type where
  | ctor : CtorOf → CtorKind → DefKind
  | fn : DefKind
  | structDef : DefKind
  | enumDef : DefKind
  | variantDef : DefKind
  | assocFn : DefKind
  | staticDef : DefKind
  | otherDef : DefKind
deriving DecidableEq

/-- Path resolution (`rustc_hir::def::Res`); `defRes` models `Res::Def` and carries the definition kind
and a definition id, `localVar` models `Res::Local`. -/
inductive Res : Type where
  | defRes : DefKind → Nat → Res
  | localVar : Nat → Res
  | selfCtor : Nat → Res
  | err : Res
deriving DecidableEq

/-- A resolved path; the lint only reads its resolution `res`. -/
structure Path where
  res : Res
  span : Span
deriving DecidableEq

/-- Qualified path (`rustc_hir::QPath`): either a resolved path with an
optional self-type qualifier, or a type-relative path whose resolution is
deferred to type checking. -/
inductive QPath : Type where
  | resolved : Option Ty → Path → QPath
  | typeRelative : Ty → PathSegment → QPath
deriving DecidableEq

/-- Closure capture mode (`rustc_hir::CaptureBy`). -/
inductive CaptureBy : Type where
  | value : CaptureBy
  | ref : CaptureBy
deriving DecidableEq

/-- Placeholder for the closure function declaration (`hir::FnDecl`); the lint
ignores it. -/
structure FnDecl where
  inputs : Nat
deriving DecidableEq

/-- Generator movability (`hir::Movability`); the lint ignores it. -/
inductive Movability : Type where
  | staticMov : Movability
  | movable : Movability
deriving DecidableEq

/-- Identifier of a closure body, looked up through the HIR map. -/
structure BodyId where
  id : Nat
deriving DecidableEq

mutual

/-- A HIR expression: a kind together with its span. -/
inductive Expr : Type where
  | mk : ExprKind → Span → Expr

/-- Expression kinds (`rustc_hir::ExprKind`), restricted to the shapes the
lint distinguishes.  `methodCall` carries the method segment, a type span,
the argument list (the receiver is element 0) and the call span, matching
`ExprKind::MethodCall(PathSegment, Span, args, Span)`.  `closure` matches
`ExprKind::Closure(CaptureBy, FnDecl, BodyId, Span, Option Movability)`. -/
inductive ExprKind : Type where
  | methodCall : PathSegment → Span → List Expr → Span → ExprKind
  | closure : CaptureBy → FnDecl → BodyId → Span → Option Movability → ExprKind
  | path : QPath → ExprKind
  | call : Expr → List Expr → ExprKind
  | lit : Nat → ExprKind
  | other : ExprKind

end

/-- The kind of an expression (`Expr::kind`). -/
def Expr.kind : Expr → ExprKind
  | Expr.mk k _ => k

/-- The span of an expression (`Expr::span`). -/
def Expr.span : Expr → Span
  | Expr.mk _ s => s

/-- Pattern kinds (`rustc_hir::PatKind`); `wild` is the wildcard `_`. -/
inductive PatKind : Type where
  | wild : PatKind
  | binding : String → PatKind
  | otherPat : PatKind
deriving DecidableEq

/-- A pattern: a kind together with its span. -/
structure Pat where
  kind : PatKind
  span : Span
deriving DecidableEq

/-- A closure parameter (`hir::Param`); the lint reads its pattern. -/
structure Param where
  pat : Pat
deriving DecidableEq

/-- A closure body (`hir::Body`): parameters and the body value expression. -/
structure Body where
  params : List Param
  value : Expr

/-- The resolution context handed to the lint (`LateContext`): the HIR map
from body ids to bodies, `cx.tcx.hir().body`.  The host guarantees the lookup
succeeds, so it is modelled total. -/
structure Context where
  bodies : BodyId → Body

/-- A lint declaration: identifier and description, from
`declare_clippy_lint!`. -/
structure Lint where
  name : String
  desc : String
deriving DecidableEq

/-- The MAP_ERR_IGNORE lint as declared in the source. -/
def MAP_ERR_IGNORE : Lint :=
  { name := "map_err_ignore",
    desc := "`map_err` should not ignore the original error" }

/-- A diagnostic record as produced by `span_lint_and_help`: lint, primary
span, primary message, optional help span, help message. -/
structure Diagnostic where
  lint : Lint
  span : Span
  msg : String
  helpSpan : Option Span
  help : String
deriving DecidableEq

/-- Construction of the diagnostic record emitted by `span_lint_and_help`. -/
def span_lint_and_help (lint : Lint) (sp : Span) (msg : String)
    (helpSpan : Option Span) (help : String) : Diagnostic :=
  { lint := lint, span := sp, msg := msg, helpSpan := helpSpan, help := help }

/-- The primary message of the emitted diagnostic, verbatim from the source. -/
def primary_message : String := "`map_err(|_|...` ignores the original error"

/-- The help message of the emitted diagnostic, verbatim from the source. -/
def help_message : String := "Consider wrapping the error in an enum variant"

/-- Shape predicate `is_unit_enum_variant` from the source: true exactly when
the expression kind is a path, the path is a resolved qualified path with no
self-type qualifier, and its resolution is a constant (unit) constructor of an
enum variant. -/
def is_unit_enum_variant (input : ExprKind) : Bool :=
  match input with
  | ExprKind.path qpath =>
      match qpath with
      | QPath.resolved none enum_path =>
          match enum_path.res with
          | Res.defRes (DefKind.ctor CtorOf.variant CtorKind.const) _ => true
          | _ => false
      | _ => false
  | _ => false

/-- The detector entry point `MapErrIgnore::check_expr`, returning the list
of diagnostics it emits on the visited expression (empty on a silent return).
It mirrors the source guard for guard: skip macro-expanded spans, require a
method call named `map_err` with exactly two arguments (receiver plus one),
require the argument to be a by-reference closure, require exactly one
wildcard parameter, and require the body value to pass the shape predicate. -/
def check_expr (cx : Context) (e : Expr) : List Diagnostic :=
  if (Expr.span e).from_expansion then
    []
  else
    match Expr.kind e with
    | ExprKind.methodCall method _t_span args _ =>
        if method.ident.name = "map_err" ∧ args.length = 2 then
          match args with
          | [_receiver, arg] =>
              match Expr.kind arg with
              | ExprKind.closure capture _ body_id body_span _ =>
                  if capture = CaptureBy.ref then
                    let closure_body := cx.bodies body_id
                    match closure_body.params with
                    | [param] =>
                        match param.pat.kind with
                        | PatKind.wild =>
                            if is_unit_enum_variant (Expr.kind closure_body.value) then
                              [span_lint_and_help MAP_ERR_IGNORE body_span
                                primary_message none help_message]
                            else
                              []
                        | _ => []
                    | _ => []
                  else
                    []
              | _ => []
          | _ => []
        else
          []
    | _ => []

/-- The shape predicate as the specification words it (§4.1): true iff the
node is a path reference whose resolved definition classification is a
constructor of a sum-type variant taking zero fields.  The specification
places no condition on the self-type qualifier of the path, so this version
reads the resolution of any resolved qualified path. -/
def is_unit_enum_variant_spec (input : ExprKind) : Bool :=
  match input with
  | ExprKind.path qpath =>
      match qpath with
      | QPath.resolved _ enum_path =>
          match enum_path.res with
          | Res.defRes (DefKind.ctor CtorOf.variant CtorKind.const) _ => true
          | _ => false
      | _ => false
  | _ => false

@[simp] theorem Expr.kind_mk (k : ExprKind) (s : Span) :
    Expr.kind (Expr.mk k s) = k := rfl

@[simp] theorem Expr.span_mk (k : ExprKind) (s : Span) :
    Expr.span (Expr.mk k s) = s := rfl

/-- Exact characterization of the source shape predicate: it accepts exactly
the path expressions built from a resolved qualified path with no self-type
qualifier whose resolution is a constant variant constructor. -/
theorem is_unit_enum_variant_iff_aux (k : ExprKind) :
    is_unit_enum_variant k = true ↔
      ∃ (p : Path) (d : Nat), k = ExprKind.path (QPath.resolved none p)
        ∧ p.res = Res.defRes (DefKind.ctor CtorOf.variant CtorKind.const) d := by
  constructor
  · intro h
    cases k with
    | path q =>
      cases q with
      | resolved oty p =>
        cases oty with
        | none =>
          cases hres : p.res with
          | defRes dk d =>
            cases dk with
            | ctor cof ck =>
              cases cof with
              | variant =>
                cases ck with
                | const => exact ⟨p, d, rfl, hres⟩
                | fn => simp [is_unit_enum_variant, hres] at h
              | structCtor => simp [is_unit_enum_variant, hres] at h
            | fn => simp [is_unit_enum_variant, hres] at h
            | structDef => simp [is_unit_enum_variant, hres] at h
            | enumDef => simp [is_unit_enum_variant, hres] at h
            | variantDef => simp [is_unit_enum_variant, hres] at h
            | assocFn => simp [is_unit_enum_variant, hres] at h
            | staticDef => simp [is_unit_enum_variant, hres] at h
            | otherDef => simp [is_unit_enum_variant, hres] at h
          | localVar i => simp [is_unit_enum_variant, hres] at h
          | selfCtor i => simp [is_unit_enum_variant, hres] at h
          | err => simp [is_unit_enum_variant, hres] at h
        | some ty => simp [is_unit_enum_variant] at h
      | typeRelative ty seg => simp [is_unit_enum_variant] at h
    | methodCall a b c d => simp [is_unit_enum_variant] at h
    | closure a b c d f => simp [is_unit_enum_variant] at h
    | call f as => simp [is_unit_enum_variant] at h
    | lit n => simp [is_unit_enum_variant] at h
    | other => simp [is_unit_enum_variant] at h
  · rintro ⟨p, d, rfl, hres⟩
    simp [is_unit_enum_variant, hres]

/-! Concrete fixtures used by the witness theorems. -/

/-- A plain source span not coming from expansion. -/
def sp0 : Span := ⟨0, 1, false⟩

/-- A span marked as coming from macro expansion or desugaring. -/
def sp_exp : Span := ⟨0, 1, true⟩

/-- The span of the sample closure body. -/
def body_span0 : Span := ⟨5, 9, false⟩

/-- A path resolving to a constant (unit) variant constructor, such as
`Error::Indivisible`. -/
def unit_variant_path : Path :=
  ⟨Res.defRes (DefKind.ctor CtorOf.variant CtorKind.const) 7, sp0⟩

/-- The closure body expression `Error::Indivisible`. -/
def unit_variant_expr : Expr :=
  Expr.mk (ExprKind.path (QPath.resolved none unit_variant_path)) sp0

/-- A closure parameter with a wildcard pattern. -/
def wild_param : Param := ⟨⟨PatKind.wild, sp0⟩⟩

/-- The closure body of `|_| Error::Indivisible`. -/
def body0 : Body := ⟨[wild_param], unit_variant_expr⟩

/-- A resolution context mapping every body id to `body0`. -/
def cx0 : Context := ⟨fun _ => body0⟩

/-- A sample receiver expression. -/
def receiver0 : Expr := Expr.mk ExprKind.other sp0

/-- A sample closure declaration placeholder. -/
def fd0 : FnDecl := ⟨1⟩

/-- The body id of the sample closure. -/
def bid0 : BodyId := ⟨3⟩

/-- The by-reference closure `|_| Error::Indivisible`. -/
def ref_closure0 : Expr :=
  Expr.mk (ExprKind.closure CaptureBy.ref fd0 bid0 body_span0 none) sp0

/-- The by-value closure `move |_| Error::Indivisible`. -/
def move_closure0 : Expr :=
  Expr.mk (ExprKind.closure CaptureBy.value fd0 bid0 body_span0 none) sp0

/-- The method segment `map_err`. -/
def map_err_seg : PathSegment := ⟨⟨"map_err"⟩⟩

/-- The call `result.map_err(|_| Error::Indivisible)`. -/
def map_err_call0 : Expr :=
  Expr.mk (ExprKind.methodCall map_err_seg sp0 [receiver0, ref_closure0] sp0) sp0

/-- The diagnostic the lint emits on a full match of the sample call. -/
def expected_diag : Diagnostic :=
  ⟨MAP_ERR_IGNORE, body_span0, primary_message, none, help_message⟩

/-- A closure body whose parameter is a named binding, as in
`|e| Error::Wrapped(e)`. -/
def body_binding : Body := ⟨[⟨⟨PatKind.binding "e", sp0⟩⟩], unit_variant_expr⟩

/-- A resolution context mapping every body id to `body_binding`. -/
def cx_binding : Context := ⟨fun _ => body_binding⟩

/-- A self-qualified path expression kind whose resolution is nevertheless a
constant variant constructor. -/
def self_qualified_unit_variant : ExprKind :=
  ExprKind.path (QPath.resolved (some ⟨0⟩) unit_variant_path)

/-- C1: for every expression that is not macro-expanded, is a method call
named `map_err` with exactly one explicit argument beyond the receiver, whose
sole argument is a by-reference closure with exactly one wildcard parameter
and whose body expression passes the shape predicate, `check_expr` emits
exactly one diagnostic, located at the closure body span, with the fixed
primary message and the fixed help note.  The argument list models the HIR
convention of this revision: the receiver is element 0, so a two-element list
is one explicit argument beyond the receiver. -/
theorem check_expr_full_match_emits_one_diagnostic (cx : Context) (e : Expr)
    (method : PathSegment) (t_span call_span arg_span body_span : Span)
    (receiver : Expr) (fd : FnDecl) (body_id : BodyId)
    (mov : Option Movability) (param : Param)
    (h_exp : (Expr.span e).from_expansion = false)
    (h_kind : Expr.kind e = ExprKind.methodCall method t_span
      [receiver, Expr.mk (ExprKind.closure CaptureBy.ref fd body_id body_span mov) arg_span]
      call_span)
    (h_name : method.ident.name = "map_err")
    (h_params : (cx.bodies body_id).params = [param])
    (h_wild : param.pat.kind = PatKind.wild)
    (h_body : is_unit_enum_variant (Expr.kind (cx.bodies body_id).value) = true) :
    check_expr cx e =
      [{ lint := MAP_ERR_IGNORE, span := body_span, msg := primary_message,
         helpSpan := none, help := help_message }] := by
  obtain ⟨k, sp⟩ := e
  simp only [Expr.kind_mk] at h_kind
  simp only [Expr.span_mk] at h_exp
  subst h_kind
  rcases hB : cx.bodies body_id with ⟨ps, v⟩
  obtain ⟨vk, vs⟩ := v
  rw [hB] at h_params h_body
  simp only [Expr.kind_mk] at h_body
  simp at h_params
  subst h_params
  simp [check_expr, h_exp, h_name, hB, h_wild, h_body, span_lint_and_help]

/-- Witness for C1 on the sample call `result.map_err(|_| Error::Indivisible)`. -/
theorem check_expr_full_match_witness :
    check_expr cx0 map_err_call0 = [expected_diag] :=
  check_expr_full_match_emits_one_diagnostic cx0 map_err_call0
    map_err_seg sp0 sp0 sp0 body_span0 receiver0 fd0 bid0 none wild_param
    rfl rfl rfl rfl rfl rfl

/-- C2 counterexample: a self-qualified resolved path whose resolution is a
constant variant constructor is a path reference with the classification the
claim names, so the claimed characterization says the predicate accepts it,
but the source predicate rejects it because its resolved qualified path
carries a self-type qualifier. -/
theorem is_unit_enum_variant_self_qualified_counterexample :
    is_unit_enum_variant_spec self_qualified_unit_variant = true
    ∧ is_unit_enum_variant self_qualified_unit_variant = false :=
  ⟨rfl, rfl⟩

/-- C2 (amended): the shape predicate is total by construction and returns
true iff the node is a path reference built from a resolved qualified path
with no self-type qualifier whose resolved definition classification is a
constructor of a sum-type variant taking zero fields; every other shape or
classification yields false. -/
theorem is_unit_enum_variant_plain_resolved_characterization (k : ExprKind) :
    is_unit_enum_variant k = true ↔
      ∃ (p : Path) (d : Nat), k = ExprKind.path (QPath.resolved none p)
        ∧ p.res = Res.defRes (DefKind.ctor CtorOf.variant CtorKind.const) d :=
  is_unit_enum_variant_iff_aux k

/-- Witness for C2 at the concrete node `Error::Indivisible`. -/
theorem is_unit_enum_variant_characterization_witness :
    is_unit_enum_variant (ExprKind.path (QPath.resolved none unit_variant_path)) = true
    ↔ ∃ (p : Path) (d : Nat),
        ExprKind.path (QPath.resolved none unit_variant_path)
          = ExprKind.path (QPath.resolved none p)
        ∧ p.res = Res.defRes (DefKind.ctor CtorOf.variant CtorKind.const) d :=
  is_unit_enum_variant_plain_resolved_characterization
    (ExprKind.path (QPath.resolved none unit_variant_path))

/-- C3: for every expression whose span is marked as coming from macro
expansion or desugaring, `check_expr` emits no diagnostic, regardless of the
rest of the node. -/
theorem check_expr_expansion_silent (cx : Context) (e : Expr)
    (h : (Expr.span e).from_expansion = true) :
    check_expr cx e = [] := by
  obtain ⟨k, sp⟩ := e
  simp only [Expr.span_mk] at h
  simp [check_expr, h]

/-- Witness for C3: the sample call, otherwise a full match, under an
expansion-marked span. -/
theorem check_expr_expansion_silent_witness :
    check_expr cx0
      (Expr.mk (ExprKind.methodCall map_err_seg sp0 [receiver0, ref_closure0] sp0) sp_exp)
      = [] :=
  check_expr_expansion_silent cx0
    (Expr.mk (ExprKind.methodCall map_err_seg sp0 [receiver0, ref_closure0] sp0) sp_exp)
    rfl

/-- C4: for every `map_err` call whose sole argument is a by-value (move)
closure, `check_expr` emits no diagnostic, whatever the closure body and
parameters are. -/
theorem check_expr_move_closure_silent (cx : Context) (e : Expr)
    (method : PathSegment) (t_span call_span arg_span body_span : Span)
    (receiver : Expr) (fd : FnDecl) (body_id : BodyId) (mov : Option Movability)
    (h_kind : Expr.kind e = ExprKind.methodCall method t_span
      [receiver, Expr.mk (ExprKind.closure CaptureBy.value fd body_id body_span mov) arg_span]
      call_span) :
    check_expr cx e = [] := by
  obtain ⟨k, sp⟩ := e
  simp only [Expr.kind_mk] at h_kind
  subst h_kind
  simp [check_expr]

/-- Witness for C4: `result.map_err(move |_| Error::Indivisible)` with a
one-wildcard-parameter unit-variant body is not linted. -/
theorem check_expr_move_closure_silent_witness :
    check_expr cx0
      (Expr.mk (ExprKind.methodCall map_err_seg sp0 [receiver0, move_closure0] sp0) sp0)
      = [] :=
  check_expr_move_closure_silent cx0
    (Expr.mk (ExprKind.methodCall map_err_seg sp0 [receiver0, move_closure0] sp0) sp0)
    map_err_seg sp0 sp0 sp0 body_span0 receiver0 fd0 bid0 none rfl

/-- C5: for every method call whose method name differs from `map_err` or
whose number of explicit arguments beyond the receiver (element 0 of the
argument list) is not exactly one, `check_expr` emits no diagnostic. -/
theorem check_expr_name_or_arity_mismatch_silent (cx : Context) (e : Expr)
    (method : PathSegment) (t_span call_span : Span)
    (receiver : Expr) (rest : List Expr)
    (h_kind : Expr.kind e = ExprKind.methodCall method t_span (receiver :: rest) call_span)
    (h : method.ident.name ≠ "map_err" ∨ rest.length ≠ 1) :
    check_expr cx e = [] := by
  obtain ⟨k, sp⟩ := e
  simp only [Expr.kind_mk] at h_kind
  subst h_kind
  simp [check_expr]
  intro _ hname hlen
  rcases h with h | h
  · exact absurd hname h
  · exact absurd hlen h

/-- Witness for C5: a method call named `map` with an otherwise matching
closure argument is not linted. -/
theorem check_expr_name_or_arity_mismatch_witness :
    check_expr cx0
      (Expr.mk (ExprKind.methodCall ⟨⟨"map"⟩⟩ sp0 [receiver0, ref_closure0] sp0) sp0)
      = [] :=
  check_expr_name_or_arity_mismatch_silent cx0
    (Expr.mk (ExprKind.methodCall ⟨⟨"map"⟩⟩ sp0 [receiver0, ref_closure0] sp0) sp0)
    ⟨⟨"map"⟩⟩ sp0 sp0 receiver0 [ref_closure0] rfl
    (Or.inl (by decide))

/-- C6: for every `map_err` call whose sole argument is not a closure node
(for example a direct path reference such as
`result.map_err(Error::Indivisible)`), `check_expr` emits no diagnostic. -/
theorem check_expr_non_closure_argument_silent (cx : Context) (e : Expr)
    (method : PathSegment) (t_span call_span : Span)
    (receiver arg : Expr)
    (h_kind : Expr.kind e = ExprKind.methodCall method t_span [receiver, arg] call_span)
    (h_not : ∀ (c : CaptureBy) (fd : FnDecl) (b : BodyId) (bs : Span) (m : Option Movability),
      Expr.kind arg ≠ ExprKind.closure c fd b bs m) :
    check_expr cx e = [] := by
  obtain ⟨k, sp⟩ := e
  simp only [Expr.kind_mk] at h_kind
  subst h_kind
  obtain ⟨ak, asp⟩ := arg
  simp only [Expr.kind_mk] at h_not
  cases ak with
  | closure c fd b bs m => exact absurd rfl (h_not c fd b bs m)
  | methodCall a b c d => simp [check_expr]
  | path q => simp [check_expr]
  | call f as => simp [check_expr]
  | lit n => simp [check_expr]
  | other => simp [check_expr]

/-- Witness for C6: `result.map_err(Error::Indivisible)`, a direct variant
constructor reference in argument position, is not linted. -/
theorem check_expr_non_closure_argument_witness :
    check_expr cx0
      (Expr.mk (ExprKind.methodCall map_err_seg sp0 [receiver0, unit_variant_expr] sp0) sp0)
      = [] :=
  check_expr_non_closure_argument_silent cx0
    (Expr.mk (ExprKind.methodCall map_err_seg sp0 [receiver0, unit_variant_expr] sp0) sp0)
    map_err_seg sp0 sp0 receiver0 unit_variant_expr rfl
    (by intro c fd b bs m; simp [unit_variant_expr])

/-- C7: for every `map_err` call with a by-reference closure argument whose
closure body does not declare exactly one parameter with a wildcard pattern
(a named binding, zero parameters, or several parameters), `check_expr`
emits no diagnostic. -/
theorem check_expr_param_shape_mismatch_silent (cx : Context) (e : Expr)
    (method : PathSegment) (t_span call_span arg_span body_span : Span)
    (receiver : Expr) (fd : FnDecl) (body_id : BodyId) (mov : Option Movability)
    (h_kind : Expr.kind e = ExprKind.methodCall method t_span
      [receiver, Expr.mk (ExprKind.closure CaptureBy.ref fd body_id body_span mov) arg_span]
      call_span)
    (h_not : ¬ ∃ q : Param, (cx.bodies body_id).params = [q] ∧ q.pat.kind = PatKind.wild) :
    check_expr cx e = [] := by
  obtain ⟨k, sp⟩ := e
  simp only [Expr.kind_mk] at h_kind
  subst h_kind
  rcases hB : cx.bodies body_id with ⟨ps, v⟩
  rw [hB] at h_not
  match ps, h_not with
  | [], _ => simp [check_expr, hB]
  | [q], hn =>
    have hq : q.pat.kind ≠ PatKind.wild := fun hw => hn ⟨q, rfl, hw⟩
    cases hqk : q.pat.kind with
    | wild => exact absurd hqk hq
    | binding s => simp [check_expr, hB, hqk]
    | otherPat => simp [check_expr, hB, hqk]
  | q1 :: q2 :: qs, _ => simp [check_expr, hB]

/-- Witness for C7: `result.map_err(|e| Error::Indivisible)`, whose closure
parameter is the named binding `e` rather than a wildcard, is not linted. -/
theorem check_expr_param_shape_mismatch_witness :
    check_expr cx_binding map_err_call0 = [] :=
  check_expr_param_shape_mismatch_silent cx_binding map_err_call0
    map_err_seg sp0 sp0 sp0 body_span0 receiver0 fd0 bid0 none rfl
    (by
      rintro ⟨q, hq, hw⟩
      simp [cx_binding, body_binding] at hq
      rw [← hq] at hw
      simp at hw)

/-- C8: the detector is deterministic — it is a pure function of the visited
node and the resolution context, so two invocations on the same unchanged
node with extensionally equal body maps return the same list of diagnostics,
with the same spans and messages. -/
theorem check_expr_deterministic (cx1 cx2 : Context) (e : Expr)
    (h : ∀ b : BodyId, cx1.bodies b = cx2.bodies b) :
    check_expr cx1 e = check_expr cx2 e := by
  obtain ⟨f⟩ := cx1
  obtain ⟨g⟩ := cx2
  have hfg : f = g := funext fun b => h b
  subst hfg
  rfl

/-- Witness for C8: two invocations on the sample call agree. -/
theorem check_expr_deterministic_witness :
    check_expr cx0 map_err_call0 = check_expr cx0 map_err_call0 :=
  check_expr_deterministic cx0 cx0 map_err_call0 (fun _ => rfl)

/-- C9: the detector matches on the method name alone and never inspects the
receiver or any resolved method definition — the embedding carries no
receiver type because the source reads none — so for an arbitrary receiver
expression, a `map_err` call whose sole argument is a by-reference
one-wildcard-parameter closure with a shape-predicate-accepted body is
linted. -/
theorem check_expr_receiver_type_agnostic (cx : Context) (receiver : Expr)
    (t_span call_span arg_span body_span outer : Span) (fd : FnDecl)
    (body_id : BodyId) (mov : Option Movability) (param : Param)
    (h_exp : outer.from_expansion = false)
    (h_params : (cx.bodies body_id).params = [param])
    (h_wild : param.pat.kind = PatKind.wild)
    (h_body : is_unit_enum_variant (Expr.kind (cx.bodies body_id).value) = true) :
    check_expr cx (Expr.mk (ExprKind.methodCall ⟨⟨"map_err"⟩⟩ t_span
        [receiver, Expr.mk (ExprKind.closure CaptureBy.ref fd body_id body_span mov) arg_span]
        call_span) outer)
      = [{ lint := MAP_ERR_IGNORE, span := body_span, msg := primary_message,
           helpSpan := none, help := help_message }] := by
  rcases hB : cx.bodies body_id with ⟨ps, v⟩
  obtain ⟨vk, vs⟩ := v
  rw [hB] at h_params h_body
  simp only [Expr.kind_mk] at h_body
  simp at h_params
  subst h_params
  simp [check_expr, h_exp, hB, h_wild, h_body, span_lint_and_help]

/-- Witness for C9: a bare literal receiver, certainly not a Result-like
value, still triggers the diagnostic. -/
theorem check_expr_receiver_type_agnostic_witness :
    check_expr cx0 (Expr.mk (ExprKind.methodCall ⟨⟨"map_err"⟩⟩ sp0
        [Expr.mk (ExprKind.lit 42) sp0, ref_closure0] sp0) sp0)
      = [expected_diag] :=
  check_expr_receiver_type_agnostic cx0 (Expr.mk (ExprKind.lit 42) sp0)
    sp0 sp0 sp0 body_span0 sp0 fd0 bid0 none wild_param rfl rfl rfl rfl

/-- C10: the shape predicate accepts only resolved qualified paths with no
self-type qualifier: it rejects a self-qualified resolved path and a
type-relative path even when they name a zero-field variant constructor,
every accepted node is a plain resolved path, and a `map_err` call whose
closure body is such a self-qualified path is never linted. -/
theorem is_unit_enum_variant_requires_unqualified_path (ty : Ty) (p : Path)
    (seg : PathSegment) (k : ExprKind)
    (hk : is_unit_enum_variant k = true) :
    is_unit_enum_variant (ExprKind.path (QPath.resolved (some ty) p)) = false
    ∧ is_unit_enum_variant (ExprKind.path (QPath.typeRelative ty seg)) = false
    ∧ (∃ p2 : Path, k = ExprKind.path (QPath.resolved none p2))
    ∧ (∀ (cx : Context) (method : PathSegment)
        (t_span call_span arg_span body_span outer vsp : Span)
        (receiver : Expr) (fd : FnDecl) (body_id : BodyId) (mov : Option Movability),
        (cx.bodies body_id).value = Expr.mk (ExprKind.path (QPath.resolved (some ty) p)) vsp →
        check_expr cx (Expr.mk (ExprKind.methodCall method t_span
          [receiver, Expr.mk (ExprKind.closure CaptureBy.ref fd body_id body_span mov) arg_span]
          call_span) outer) = []) := by
  refine ⟨rfl, rfl, ?_, ?_⟩
  · obtain ⟨p2, d, hk2, _⟩ := (is_unit_enum_variant_iff_aux k).mp hk
    exact ⟨p2, hk2⟩
  · intro cx method t_span call_span arg_span body_span outer vsp receiver fd body_id mov hv
    rcases hB : cx.bodies body_id with ⟨ps, v⟩
    rw [hB] at hv
    simp at hv
    match ps with
    | [] => simp [check_expr, hB]
    | [q] =>
      cases hqk : q.pat.kind with
      | wild =>
        subst hv
        simp [check_expr, hB, hqk, is_unit_enum_variant]
      | binding s => simp [check_expr, hB, hqk]
      | otherPat => simp [check_expr, hB, hqk]
    | q1 :: q2 :: qs => simp [check_expr, hB]

/-- Witness for C10 at a concrete self type, path, segment and accepted
node. -/
theorem is_unit_enum_variant_requires_unqualified_path_witness :
    is_unit_enum_variant (ExprKind.path (QPath.resolved (some ⟨0⟩) unit_variant_path)) = false
    ∧ is_unit_enum_variant (ExprKind.path (QPath.typeRelative ⟨0⟩ map_err_seg)) = false
    ∧ (∃ p2 : Path, ExprKind.path (QPath.resolved none unit_variant_path)
        = ExprKind.path (QPath.resolved none p2))
    ∧ (∀ (cx : Context) (method : PathSegment)
        (t_span call_span arg_span body_span outer vsp : Span)
        (receiver : Expr) (fd : FnDecl) (body_id : BodyId) (mov : Option Movability),
        (cx.bodies body_id).value
            = Expr.mk (ExprKind.path (QPath.resolved (some ⟨0⟩) unit_variant_path)) vsp →
        check_expr cx (Expr.mk (ExprKind.methodCall method t_span
          [receiver, Expr.mk (ExprKind.closure CaptureBy.ref fd body_id body_span mov) arg_span]
          call_span) outer) = []) :=
  is_unit_enum_variant_requires_unqualified_path ⟨0⟩ unit_variant_path map_err_seg
    (ExprKind.path (QPath.resolved none unit_variant_path)) rfl

end MapErrIgnore
